import Mathlib

/-!
Verification of the quota-monitoring core of the claude-bar menu-bar
application.  The TypeScript services are shallowly embedded as pure Lean
functions over explicit state records:

* `SchedulerService` (scheduler.ts) — adaptive polling interval;
* `HistoryService` (history.ts) — bounded sample ledger, trend and
  time-to-threshold estimation;
* `NotificationService` (notifications, latest revision) — level
  transitions and token-refresh-failure alerts;
* `KeychainService` (keychain.ts) — credential refresh with the
  single-flight boolean guard;
* `QuotaService` (quota-api, latest revision) — retrying fetch loop,
  error classification, snapshot cache.

JavaScript numbers are modelled as `ℚ` (all arithmetic performed by the
embedded code paths is exact on the inputs considered), `Math.floor` as
`Int.floor`, `Math.round` as `⌊x + 1/2⌋` (JS rounds half up), and
asynchronous network calls as explicit outcome parameters.
-/

namespace ClaudeBar

/-- Quota level, from `QuotaLevel` in the notification service. -/
inductive QuotaLevel
  | normal
  | warning
  | critical
deriving DecidableEq, Repr

/-- JS `Math.round`: rounds half away from zero on positives; for every
value JS computes `⌊x + 0.5⌋` (e.g. `Math.round(-0.5) = 0`). -/
def jsRound (x : ℚ) : ℤ := ⌊x + 1/2⌋

/-- `Math.round(x * 100) / 100` — round to 2 decimal places. -/
def round2 (x : ℚ) : ℚ := (jsRound (x * 100) : ℚ) / 100

/-- `Math.round(x * 10) / 10` — round to 1 decimal place. -/
def round1 (x : ℚ) : ℚ := (jsRound (x * 10) : ℚ) / 10

/-! ## Adaptive scheduler (scheduler.ts) -/

/-- The mutable fields of `SchedulerService` that the interval logic
reads and writes (timer handles are external resources, not state). -/
structure SchedulerState where
  refreshIntervalMs : Nat
  baseIntervalMs : Nat
  adaptiveEnabled : Bool
  currentQuotaLevel : QuotaLevel
deriving DecidableEq, Repr

/-- `SchedulerService.getAdaptiveInterval`. -/
def getAdaptiveInterval (st : SchedulerState) : Nat :=
  if !st.adaptiveEnabled then
    st.baseIntervalMs
  else
    match st.currentQuotaLevel with
    | .critical => max 15000 (st.baseIntervalMs / 4)
    | .warning => max 30000 (st.baseIntervalMs / 2)
    | .normal => st.baseIntervalMs

/-- `SchedulerService.updateQuotaLevel` (the timer stop/start only
re-arms the external timer; the state change is the interval field). -/
def updateQuotaLevel (st : SchedulerState) (level : QuotaLevel) : SchedulerState :=
  if level = st.currentQuotaLevel then
    st
  else
    let st1 := { st with currentQuotaLevel := level }
    if st1.adaptiveEnabled then
      let newInterval := getAdaptiveInterval st1
      if newInterval ≠ st1.refreshIntervalMs then
        { st1 with refreshIntervalMs := newInterval }
      else st1
    else st1

/-- `SchedulerService.setRefreshInterval` (seconds). -/
def setRefreshInterval (st : SchedulerState) (seconds : Nat) : SchedulerState :=
  let st1 := { st with baseIntervalMs := seconds * 1000 }
  { st1 with refreshIntervalMs := getAdaptiveInterval st1 }

/-! ## History ledger (history.ts) -/

/-- `HistoryEntry`. -/
structure HistoryEntry where
  timestamp : ℚ
  fiveHour : ℚ
  sevenDay : ℚ
deriving DecidableEq, Repr

/-- `MAX_ENTRIES`. -/
def MAX_ENTRIES : Nat := 1000

/-- The push-and-trim tail of `HistoryService.addEntry`: append the
rounded sample, then `splice(0, length - MAX_ENTRIES)` if over capacity. -/
def pushAndTrim (entries : List HistoryEntry) (now fiveHour sevenDay : ℚ) :
    List HistoryEntry :=
  let es := entries ++ [⟨now, round2 fiveHour, round2 sevenDay⟩]
  if es.length > MAX_ENTRIES then es.drop (es.length - MAX_ENTRIES) else es

/-- `HistoryService.addEntry`, with `Date.now()` made explicit. -/
def addEntry (entries : List HistoryEntry) (now fiveHour sevenDay : ℚ) :
    List HistoryEntry :=
  match entries.getLast? with
  | some lastEntry =>
    if now - lastEntry.timestamp < 30000 then entries
    else pushAndTrim entries now fiveHour sevenDay
  | none => pushAndTrim entries now fiveHour sevenDay

/-- `HistoryService.getEntries(since)`; JS `if (!since) return entries`
also fires when `since` is exactly `0` (falsy). -/
def getEntries (entries : List HistoryEntry) (since : Option ℚ) :
    List HistoryEntry :=
  match since with
  | none => entries
  | some s => if s = 0 then entries else entries.filter (fun e => s ≤ e.timestamp)

/-- `HistoryService.getEntriesForPeriod(hours)`. -/
def getEntriesForPeriod (entries : List HistoryEntry) (now hours : ℚ) :
    List HistoryEntry :=
  getEntries entries (some (now - hours * (60 * 60 * 1000)))

/-- `HistoryService.getLatestEntry`. -/
def getLatestEntry (entries : List HistoryEntry) : Option HistoryEntry :=
  entries.getLast?

/-- Trend direction. -/
inductive TrendDirection
  | up
  | down
  | stable
deriving DecidableEq, Repr

/-- One metric of `TrendData`. -/
structure TrendMetric where
  direction : TrendDirection
  delta : ℚ
deriving DecidableEq, Repr

/-- `TrendData`. -/
structure TrendData where
  fiveHour : TrendMetric
  sevenDay : TrendMetric
deriving DecidableEq, Repr

/-- The inner `getDirection` of `HistoryService.getTrend`
(`STABLE_THRESHOLD = 2`). -/
def getDirection (delta : ℚ) : TrendDirection :=
  if delta > 2 then .up else if delta < -2 then .down else .stable

/-- Average of a metric over a list (JS `reduce(...) / length`). -/
def avgBy (f : HistoryEntry → ℚ) (es : List HistoryEntry) : ℚ :=
  (es.map f).sum / (es.length : ℚ)

/-- `HistoryService.getTrend(lookbackMinutes)`, `Date.now()` explicit.
`timeSpanHours` reproduces the JS `timeSpanMs / 3600000 || 1` guard:
a zero span is replaced by `1`. -/
def getTrend (entries : List HistoryEntry) (now lookbackMinutes : ℚ) :
    Option TrendData :=
  let es := getEntriesForPeriod entries now (lookbackMinutes / 60)
  if es.length < 2 then none
  else
    let midIndex := es.length / 2
    let firstHalf := es.take midIndex
    let secondHalf := es.drop midIndex
    let avgFirstFiveHour := avgBy HistoryEntry.fiveHour firstHalf
    let avgSecondFiveHour := avgBy HistoryEntry.fiveHour secondHalf
    let avgFirstSevenDay := avgBy HistoryEntry.sevenDay firstHalf
    let avgSecondSevenDay := avgBy HistoryEntry.sevenDay secondHalf
    let timeSpanMs := ((es.getLast?.map HistoryEntry.timestamp).getD 0)
      - ((es.head?.map HistoryEntry.timestamp).getD 0)
    let timeSpanHours0 := timeSpanMs / (1000 * 60 * 60)
    let timeSpanHours := if timeSpanHours0 = 0 then 1 else timeSpanHours0
    let fiveHourDelta := (avgSecondFiveHour - avgFirstFiveHour) / (timeSpanHours / 2)
    let sevenDayDelta := (avgSecondSevenDay - avgFirstSevenDay) / (timeSpanHours / 2)
    some ⟨⟨getDirection fiveHourDelta, round1 fiveHourDelta⟩,
          ⟨getDirection sevenDayDelta, round1 sevenDayDelta⟩⟩

/-- `TimeToThreshold`. -/
structure TimeToThreshold where
  fiveHour : Option ℚ
  sevenDay : Option ℚ
deriving DecidableEq, Repr

/-- The inner `calculateHoursToThreshold` of
`HistoryService.estimateTimeToThreshold`. -/
def calculateHoursToThreshold (threshold current deltaPerHour : ℚ) : Option ℚ :=
  if deltaPerHour ≤ 0 ∨ current ≥ threshold then none
  else
    let hours := (threshold - current) / deltaPerHour
    if hours > 24 then none else some (round1 hours)

/-- `HistoryService.estimateTimeToThreshold(threshold)`. -/
def estimateTimeToThreshold (entries : List HistoryEntry) (now threshold : ℚ) :
    Option TimeToThreshold :=
  match getTrend entries now 30, getLatestEntry entries with
  | some trend, some latest =>
    some ⟨calculateHoursToThreshold threshold latest.fiveHour trend.fiveHour.delta,
          calculateHoursToThreshold threshold latest.sevenDay trend.sevenDay.delta⟩
  | _, _ => none

/-! ## Notification coordinator (notifications, latest revision) -/

/-- Warning/critical thresholds. -/
structure Thresholds where
  warning : ℚ
  critical : ℚ
deriving DecidableEq, Repr

/-- `NotificationState`. -/
structure NotificationState where
  lastFiveHourLevel : QuotaLevel
  lastSevenDayLevel : QuotaLevel
  lastResetNotificationFiveHour : ℚ
  lastResetNotificationSevenDay : ℚ
deriving DecidableEq, Repr

/-- The mutable fields of `NotificationService`. -/
structure NotificationService where
  state : NotificationState
  enabled : Bool
  paused : Bool
  thresholds : Thresholds
deriving DecidableEq, Repr

/-- The service as constructed at process start (field initializers). -/
def initNotificationService : NotificationService :=
  { state := { lastFiveHourLevel := .normal, lastSevenDayLevel := .normal,
               lastResetNotificationFiveHour := 0, lastResetNotificationSevenDay := 0 }
    enabled := true
    paused := false
    thresholds := { warning := 70, critical := 90 } }

/-- Notification urgency. -/
inductive Urgency
  | low
  | normal
  | critical
deriving DecidableEq, Repr

/-- A delivered system notification (title and urgency; the body strings
are presentational interpolations of the same numbers). -/
structure Alert where
  title : String
  urgency : Urgency
deriving DecidableEq, Repr

/-- `NotificationService.getLevel(utilization)`. -/
def getLevel (svc : NotificationService) (utilization : ℚ) : QuotaLevel :=
  if utilization ≥ svc.thresholds.critical then .critical
  else if utilization ≥ svc.thresholds.warning then .warning
  else .normal

/-- `NotificationService.showNotification`: suppressed while disabled or
paused, otherwise one notification is delivered. -/
def showNotification (svc : NotificationService) (title : String) (urgency : Urgency) :
    List Alert :=
  if svc.enabled ∧ ¬svc.paused then [⟨title, urgency⟩] else []

/-- `NotificationService.checkAndNotify(fiveHourUtilization, sevenDayUtilization)`:
returns the updated service together with the alerts delivered, in order. -/
def checkAndNotify (svc : NotificationService)
    (fiveHourUtilization sevenDayUtilization : ℚ) : NotificationService × List Alert :=
  let fiveHourLevel := getLevel svc fiveHourUtilization
  let sevenDayLevel := getLevel svc sevenDayUtilization
  let fivePart :=
    if fiveHourLevel ≠ svc.state.lastFiveHourLevel then
      let alerts :=
        if fiveHourLevel = .warning ∧ svc.state.lastFiveHourLevel = .normal then
          showNotification svc "Session Quota Warning" .normal
        else if fiveHourLevel = .critical then
          showNotification svc "Session Quota Critical" .critical
        else []
      ({ svc with state := { svc.state with lastFiveHourLevel := fiveHourLevel } }, alerts)
    else (svc, [])
  let svc1 := fivePart.1
  let sevenPart :=
    if sevenDayLevel ≠ svc1.state.lastSevenDayLevel then
      let alerts :=
        if sevenDayLevel = .warning ∧ svc1.state.lastSevenDayLevel = .normal then
          showNotification svc1 "Weekly Quota Warning" .normal
        else if sevenDayLevel = .critical then
          showNotification svc1 "Weekly Quota Critical" .critical
        else []
      ({ svc1 with state := { svc1.state with lastSevenDayLevel := sevenDayLevel } }, alerts)
    else (svc1, [])
  (sevenPart.1, fivePart.2 ++ sevenPart.2)

/-- `NotificationService.notifyTokenRefreshFailed()`: the latest revision
keeps no cooldown state — the service record is returned unchanged and
the alert is delivered whenever notifications are enabled and unpaused. -/
def notifyTokenRefreshFailed (svc : NotificationService) :
    NotificationService × List Alert :=
  (svc, showNotification svc "Authentication Error" .critical)

/-- Run `checkAndNotify` over a sequence of samples, collecting every
alert delivered. -/
def runCheckAndNotify (svc : NotificationService) (samples : List (ℚ × ℚ)) :
    NotificationService × List Alert :=
  match samples with
  | [] => (svc, [])
  | (u5, u7) :: rest =>
    let step := checkAndNotify svc u5 u7
    let tail := runCheckAndNotify step.1 rest
    (tail.1, step.2 ++ tail.2)

/-! ## Credential store and token refresh (keychain.ts) -/

/-- `Credentials` (the inert issuer-metadata fields `accountUuid`,
`emailAddress`, `displayName`, `subscriptionType` are carried through the
object spread unchanged and are not modelled). -/
structure Credentials where
  accessToken : String
  refreshToken : Option String
  expiresAt : Option ℚ
deriving DecidableEq, Repr

/-- `isValidToken`: matches `^[A-Za-z0-9_\-\.]+$` with
`10 < length < 5000`. -/
def isValidToken (token : String) : Bool :=
  token.toList.all (fun c => c.isAlphanum || c = '_' || c = '-' || c = '.')
    && token.length > 10 && token.length < 5000

/-- `KeychainService.isTokenExpired` (5-minute safety buffer). -/
def isTokenExpired (credentials : Credentials) (now : ℚ) : Bool :=
  match credentials.expiresAt with
  | none => false
  | some e => now > e - 5 * 60 * 1000

/-- `TokenRefreshResponse` body. -/
structure TokenRefreshResponse where
  access_token : String
  refresh_token : String
  expires_in : ℚ
deriving DecidableEq, Repr

/-- Outcome of the refresh POST, as observed by `refreshToken`. -/
inductive RefreshHttpOutcome
  | notOk (status : Nat)
  | badJson
  | ok (data : TokenRefreshResponse)
  | netException
deriving DecidableEq, Repr

/-- The mutable fields of `KeychainService`, plus the credential record
held by the platform keychain (written by `updateKeychainCredentials`). -/
structure KeychainState where
  isRefreshing : Bool
  cachedCredentials : Option Credentials
  stored : Option Credentials
deriving DecidableEq, Repr

/-- Result of one `refreshToken` invocation: the value resolved to the
caller, the state left behind, the number of refresh POSTs issued, and
whether `notifyTokenRefreshFailed` was requested. -/
structure RefreshResult where
  returned : Option Credentials
  state : KeychainState
  networkCalls : Nat
  notifiedFailure : Bool
deriving DecidableEq, Repr

/-- The body of `KeychainService.refreshToken` after the single-flight
guard: `isRefreshing` has been set, the POST is issued (`resp`), and the
`finally` clause clears `isRefreshing`.  `writeOk` abstracts whether the
`security` CLI write in `updateKeychainCredentials` succeeds; its return
value is ignored by the caller, exactly as in the source. -/
def refreshBody (st : KeychainState) (credentials : Credentials) (now : ℚ)
    (resp : RefreshHttpOutcome) (writeOk : Bool) : RefreshResult :=
  let stDone := { st with isRefreshing := false }
  match resp with
  | .notOk _ => ⟨none, stDone, 1, true⟩
  | .netException => ⟨none, stDone, 1, true⟩
  | .badJson => ⟨none, stDone, 1, false⟩
  | .ok data =>
    if ¬isValidToken data.access_token then ⟨none, stDone, 1, false⟩
    else if ¬isValidToken data.refresh_token then ⟨none, stDone, 1, false⟩
    else if data.expires_in ≤ 0 then ⟨none, stDone, 1, false⟩
    else
      let newCredentials : Credentials :=
        { credentials with
          accessToken := data.access_token
          refreshToken := some data.refresh_token
          expiresAt := some (now + data.expires_in * 1000) }
      ⟨some newCredentials,
       { isRefreshing := false
         cachedCredentials := some newCredentials
         stored := if writeOk then some newCredentials else st.stored },
       1, false⟩

/-- `KeychainService.refreshToken(credentials)`: guards, then the body.
When a refresh is already in flight the call resolves immediately to
`this.cachedCredentials` without issuing a network call. -/
def refreshToken (st : KeychainState) (credentials : Credentials) (now : ℚ)
    (resp : RefreshHttpOutcome) (writeOk : Bool) : RefreshResult :=
  match credentials.refreshToken with
  | none => ⟨none, st, 0, false⟩
  | some rt =>
    if ¬isValidToken rt then ⟨none, st, 0, false⟩
    else if st.isRefreshing then ⟨st.cachedCredentials, st, 0, false⟩
    else refreshBody { st with isRefreshing := true } credentials now resp writeOk

/-- Outcome of a pair of overlapping `refreshToken` invocations. -/
structure OverlapRun where
  resultA : Option Credentials
  resultB : Option Credentials
  networkCalls : Nat
deriving DecidableEq, Repr

/-- Two overlapping `refreshToken` calls on the single-threaded event
loop: caller A passes the guards, sets `isRefreshing` and suspends on the
POST; caller B then runs `refreshToken` to completion against the
in-flight state; finally A resumes with the response and finishes its
body.  B mutates nothing (it hits the guard), so A completes from the
state it left. -/
def overlappingRefresh (st : KeychainState) (credentials : Credentials) (now : ℚ)
    (resp : RefreshHttpOutcome) (writeOk : Bool) : OverlapRun :=
  let stA := { st with isRefreshing := true }
  let rB := refreshToken stA credentials now resp writeOk
  let rA := refreshBody stA credentials now resp writeOk
  ⟨rA.returned, rB.returned, rA.networkCalls + rB.networkCalls⟩

/-! ## Quota fetcher (quota-api, latest revision) -/

/-- Error taxonomy. -/
inductive QuotaErrorType
  | network
  | auth
  | rate_limit
  | server
  | unknown
deriving DecidableEq, Repr

/-- `QuotaError`. -/
structure QuotaError where
  type : QuotaErrorType
  message : String
  retryable : Bool
deriving DecidableEq, Repr

/-- JS `String.prototype.includes` for a non-empty pattern. -/
def containsSubstr (s pat : String) : Bool := 2 ≤ (s.splitOn pat).length

/-- `QuotaService.classifyError`, applied to the thrown error's message. -/
def classifyError (errorMessage : String) : QuotaError :=
  if containsSubstr errorMessage "network" || containsSubstr errorMessage "ENOTFOUND"
      || containsSubstr errorMessage "ECONNREFUSED" then
    ⟨.network, "Unable to connect. Check your internet connection.", true⟩
  else if containsSubstr errorMessage "401" || containsSubstr errorMessage "authentication"
      || containsSubstr errorMessage "token" then
    ⟨.auth, "Authentication failed. Please run \"claude login\" again.", false⟩
  else if containsSubstr errorMessage "429" || containsSubstr errorMessage "rate" then
    ⟨.rate_limit, "Rate limited. Will retry automatically.", true⟩
  else if containsSubstr errorMessage "5" then
    ⟨.server, "Server error. Will retry automatically.", true⟩
  else
    ⟨.unknown, "An unexpected error occurred.", true⟩

/-- One window of the usage response body (`resets_at` is an instant;
the ISO-8601 parse by `new Date(...)` is external). -/
structure QuotaData where
  utilization : ℚ
  resets_at : ℚ
deriving DecidableEq, Repr

/-- `UsageResponse`. -/
structure UsageResponse where
  five_hour : QuotaData
  seven_day : QuotaData
deriving DecidableEq, Repr

/-- One window of the cached snapshot. -/
structure QuotaWindow where
  utilization : ℚ
  resetsAt : ℚ
  resetsIn : String
  resetProgress : ℚ
deriving DecidableEq, Repr

/-- `QuotaInfo` — the snapshot held by the quota service. -/
structure QuotaInfo where
  fiveHour : QuotaWindow
  sevenDay : QuotaWindow
  lastUpdated : ℚ
  error : Option QuotaError := none
deriving DecidableEq, Repr

/-- `QuotaService.formatTimeUntil`. -/
def formatTimeUntil (now date : ℚ) : String :=
  let diffMs := date - now
  if diffMs ≤ 0 then "Now"
  else
    let diffMinutes := ⌊diffMs / (1000 * 60)⌋
    let diffHours := ⌊diffMs / (1000 * 60 * 60)⌋
    let diffDays := ⌊diffMs / (1000 * 60 * 60 * 24)⌋
    if diffDays > 0 then
      toString diffDays ++ "d " ++ toString (diffHours % 24) ++ "h"
    else if diffHours > 0 then
      toString diffHours ++ "h " ++ toString (diffMinutes % 60) ++ "m"
    else
      toString diffMinutes ++ "m"

/-- `QuotaService.calculateResetProgress`. -/
def calculateResetProgress (now resetsAt periodHours : ℚ) : ℚ :=
  let periodMs := periodHours * (60 * 60 * 1000)
  let startTime := resetsAt - periodMs
  let elapsed := now - startTime
  let progress := max 0 (min 100 (elapsed / periodMs * 100))
  (jsRound progress : ℚ)

/-- `RetryConfig`. -/
structure RetryConfig where
  maxRetries : Nat
  baseDelay : Nat
  maxDelay : Nat
deriving DecidableEq, Repr

/-- `QuotaService.DEFAULT_RETRY_CONFIG`. -/
def DEFAULT_RETRY_CONFIG : RetryConfig := ⟨3, 1000, 8000⟩

/-- Backoff delay before attempt `attempt + 1`:
`min(baseDelay * 2^attempt, maxDelay)`. -/
def backoffDelay (cfg : RetryConfig) (attempt : Nat) : Nat :=
  min (cfg.baseDelay * 2 ^ attempt) cfg.maxDelay

/-- What one `fetch` of the usage endpoint produced: an HTTP response
whose body may fail to parse as JSON, a non-2xx status, or a thrown
transport error. -/
inductive FetchOutcome
  | ok (jsonBody : Except String UsageResponse)
  | httpError (status : Nat) (text : String)
  | netException (msg : String)

/-- What `fetchWithRetry` did: the response it returned (`none` for the
`null` returns), how many keychain refreshes it invoked, how many
`fetch` calls it made, the bearer token of each attempt in order, and
the local `lastError` it accumulated and then dropped. -/
structure FetchReport where
  response : Option (Except String UsageResponse)
  refreshCalls : Nat
  fetchCalls : Nat
  tokensUsed : List String
  swallowedError : Option String

/-- The loop of `QuotaService.fetchWithRetry`.  `remaining` counts the
loop iterations left (`maxRetries + 1` in total); one `fetch` outcome is
consumed per iteration via `outcomes`; a 401 consumes its iteration and,
at most once, obtains refreshed credentials (`refreshResult` models what
`keychainService.refreshToken` resolves to). -/
def fetchWithRetryAux (remaining : Nat) (tokenRefreshAttempted : Bool)
    (credentials : Credentials) (outcomes : Nat → FetchOutcome) (idx : Nat)
    (refreshResult : Option Credentials) (refreshCalls : Nat)
    (tokensUsed : List String) (lastErrorLocal : Option String) : FetchReport :=
  match remaining with
  | 0 => ⟨none, refreshCalls, idx, tokensUsed.reverse, lastErrorLocal⟩
  | r + 1 =>
    let tokens2 := credentials.accessToken :: tokensUsed
    match outcomes idx with
    | .ok jsonBody => ⟨some jsonBody, refreshCalls, idx + 1, tokens2.reverse, lastErrorLocal⟩
    | .httpError status text =>
      if status = 401 then
        if tokenRefreshAttempted then
          ⟨none, refreshCalls, idx + 1, tokens2.reverse, lastErrorLocal⟩
        else
          match refreshResult with
          | some refreshed =>
            fetchWithRetryAux r true refreshed outcomes (idx + 1) refreshResult
              (refreshCalls + 1) tokens2 lastErrorLocal
          | none => ⟨none, refreshCalls + 1, idx + 1, tokens2.reverse, lastErrorLocal⟩
      else if 400 ≤ status ∧ status < 500 ∧ status ≠ 429 then
        ⟨none, refreshCalls, idx + 1, tokens2.reverse, lastErrorLocal⟩
      else
        fetchWithRetryAux r tokenRefreshAttempted credentials outcomes (idx + 1)
          refreshResult refreshCalls tokens2
          (some ("HTTP " ++ toString status ++ ": " ++ text))
    | .netException msg =>
      fetchWithRetryAux r tokenRefreshAttempted credentials outcomes (idx + 1)
        refreshResult refreshCalls tokens2 (some msg)

/-- `QuotaService.fetchWithRetry` with the default config.  Note that on
every `return null` path — retries exhausted, terminal 4xx, failed or
repeated 401 — the local `lastError` is only logged, never thrown. -/
def fetchWithRetry (credentials : Credentials) (outcomes : Nat → FetchOutcome)
    (refreshResult : Option Credentials) : FetchReport :=
  fetchWithRetryAux (DEFAULT_RETRY_CONFIG.maxRetries + 1) false credentials
    outcomes 0 refreshResult 0 [] none

/-- The mutable fields of `QuotaService`. -/
structure QuotaServiceState where
  cachedQuota : Option QuotaInfo
  lastFetchTime : ℚ
  lastSuccessfulFetch : ℚ
  lastError : Option QuotaError
deriving DecidableEq, Repr

/-- The quota service as constructed at process start. -/
def initQuotaServiceState : QuotaServiceState :=
  { cachedQuota := none, lastFetchTime := 0, lastSuccessfulFetch := 0, lastError := none }

/-- `minFetchInterval` (30 seconds). -/
def minFetchInterval : ℚ := 30000

/-- The owned object graph a fetch cycle touches: quota cache, history
ledger, notification coordinator and scheduler. -/
structure AppState where
  quota : QuotaServiceState
  history : List HistoryEntry
  notif : NotificationService
  sched : SchedulerState
deriving Repr

/-- `QuotaService.fetchQuota(forceRefresh)`.  External effects are
parameters: `credentials` is what `keychainService.getValidCredentials()`
resolves to, `outcomes` the successive `fetch` results, `refreshResult`
what an in-loop 401 refresh would yield.  Returns the resolved value and
the updated state.  On a successful response the sample is recorded in
the history ledger, the notification coordinator runs, and the scheduler
is updated with the level of the new snapshot (`getQuotaLevel` delegates
to `notificationService.getLevel` on the max utilization). -/
def fetchQuota (app : AppState) (forceRefresh : Bool) (now : ℚ)
    (credentials : Option Credentials) (outcomes : Nat → FetchOutcome)
    (refreshResult : Option Credentials) : Option QuotaInfo × AppState :=
  let q := app.quota
  if ¬forceRefresh ∧ q.cachedQuota.isSome ∧ now - q.lastFetchTime < minFetchInterval then
    (q.cachedQuota, app)
  else
    match credentials with
    | none => (none, app)
    | some credentials =>
      if credentials.accessToken = "" then (none, app)
      else
        let report := fetchWithRetry credentials outcomes refreshResult
        match report.response with
        | none => (none, app)
        | some (Except.error msg) =>
          let err := classifyError msg
          let q2 := { q with lastError := some err }
          match q.cachedQuota with
          | some cq => (some { cq with error := some err }, { app with quota := q2 })
          | none => (none, { app with quota := q2 })
        | some (Except.ok data) =>
          let snap : QuotaInfo :=
            { fiveHour :=
                { utilization := data.five_hour.utilization
                  resetsAt := data.five_hour.resets_at
                  resetsIn := formatTimeUntil now data.five_hour.resets_at
                  resetProgress := calculateResetProgress now data.five_hour.resets_at 5 }
              sevenDay :=
                { utilization := data.seven_day.utilization
                  resetsAt := data.seven_day.resets_at
                  resetsIn := formatTimeUntil now data.seven_day.resets_at
                  resetProgress := calculateResetProgress now data.seven_day.resets_at (7 * 24) }
              lastUpdated := now
              error := none }
          let q2 := { q with
            cachedQuota := some snap
            lastFetchTime := now
            lastSuccessfulFetch := now
            lastError := none }
          let hist2 := addEntry app.history now data.five_hour.utilization data.seven_day.utilization
          let notifStep := checkAndNotify app.notif data.five_hour.utilization data.seven_day.utilization
          let level := getLevel notifStep.1
            (max data.five_hour.utilization data.seven_day.utilization)
          let sched2 := updateQuotaLevel app.sched level
          (some snap, { quota := q2, history := hist2, notif := notifStep.1, sched := sched2 })

/-- `QuotaService.getCachedQuota()`. -/
def getCachedQuota (st : QuotaServiceState) : Option QuotaInfo :=
  st.cachedQuota

/-- `QuotaService.getLastError()`. -/
def getLastError (st : QuotaServiceState) : Option QuotaError :=
  st.lastError

/-! ## Theorems -/

/-- Helper: `updateQuotaLevel` leaves the interval field equal to the
adaptive interval of the updated level, provided the state was
consistent (as every mutator of scheduler state keeps it). -/
theorem updateQuotaLevel_refreshIntervalMs (st : SchedulerState) (level : QuotaLevel)
    (hInv : st.refreshIntervalMs = getAdaptiveInterval st) :
    (updateQuotaLevel st level).refreshIntervalMs =
      getAdaptiveInterval { st with currentQuotaLevel := level } := by
  obtain ⟨ri, base, adaptive, cur⟩ := st
  by_cases h : level = cur
  · subst h
    simp only [updateQuotaLevel, if_pos rfl]
    simpa using hInv
  · cases adaptive with
    | false =>
      simp only [updateQuotaLevel, if_neg h]
      simpa [getAdaptiveInterval] using hInv
    | true =>
      by_cases hne : getAdaptiveInterval ⟨ri, base, true, level⟩ = ri
      · simp only [updateQuotaLevel, if_neg h]
        simp [hne]
      · simp [updateQuotaLevel, if_neg h, hne]

/-- Helper: `refreshBody` always issues exactly one network call. -/
theorem refreshBody_networkCalls (st : KeychainState) (credentials : Credentials)
    (now : ℚ) (resp : RefreshHttpOutcome) (writeOk : Bool) :
    (refreshBody st credentials now resp writeOk).networkCalls = 1 := by
  cases resp <;> simp only [refreshBody]
  split_ifs <;> rfl

/-- Helper: a valid token is non-empty. -/
theorem isValidToken_ne_empty (t : String) (h : isValidToken t = true) : t ≠ "" := by
  intro he
  subst he
  simp [isValidToken] at h

/-- C6: with adaptive mode enabled and base interval B, the scheduler's
next interval after a level update is `max(15000, ⌊B/4⌋)` at critical,
`max(30000, ⌊B/2⌋)` at warning and `B` at normal; with adaptive mode
disabled it stays `B`; in particular `B = 60000` gives 15000 at critical
and 30000 at warning. -/
theorem C6_scheduler_adaptive_interval (st : SchedulerState) (level : QuotaLevel)
    (hInv : st.refreshIntervalMs = getAdaptiveInterval st) :
    ((updateQuotaLevel st level).refreshIntervalMs =
      if st.adaptiveEnabled then
        match level with
        | QuotaLevel.critical => max 15000 (st.baseIntervalMs / 4)
        | QuotaLevel.warning => max 30000 (st.baseIntervalMs / 2)
        | QuotaLevel.normal => st.baseIntervalMs
      else st.baseIntervalMs) ∧
    (st.baseIntervalMs = 60000 → st.adaptiveEnabled = true →
      (updateQuotaLevel st QuotaLevel.critical).refreshIntervalMs = 15000 ∧
      (updateQuotaLevel st QuotaLevel.warning).refreshIntervalMs = 30000) := by
  have key : ∀ l : QuotaLevel, (updateQuotaLevel st l).refreshIntervalMs =
      if st.adaptiveEnabled then
        match l with
        | QuotaLevel.critical => max 15000 (st.baseIntervalMs / 4)
        | QuotaLevel.warning => max 30000 (st.baseIntervalMs / 2)
        | QuotaLevel.normal => st.baseIntervalMs
      else st.baseIntervalMs := by
    intro l
    rw [updateQuotaLevel_refreshIntervalMs st l hInv]
    obtain ⟨ri, base, adaptive, cur⟩ := st
    cases adaptive <;> cases l <;> simp [getAdaptiveInterval]
  refine ⟨key level, fun hB hA => ⟨?_, ?_⟩⟩
  · rw [key QuotaLevel.critical, hA, hB]
    decide
  · rw [key QuotaLevel.warning, hA, hB]
    decide

/-- C6 witness: at base 60000, adaptive on, level normal, updating to
critical yields 15000. -/
theorem C6_witness :
    (⟨60000, 60000, true, QuotaLevel.normal⟩ : SchedulerState).refreshIntervalMs =
      getAdaptiveInterval ⟨60000, 60000, true, QuotaLevel.normal⟩ ∧
    (updateQuotaLevel ⟨60000, 60000, true, QuotaLevel.normal⟩ QuotaLevel.critical).refreshIntervalMs
      = 15000 := by
  refine ⟨by decide, ?_⟩
  have h := C6_scheduler_adaptive_interval ⟨60000, 60000, true, QuotaLevel.normal⟩
    QuotaLevel.critical (by decide)
  exact (h.2 rfl rfl).1

/-- C4: the claim says the sequence normal→warning→critical→normal fires
three alerts (warning, critical, recovery).  Evaluating the latest
`checkAndNotify` on utilizations 50→75→95→50 (default thresholds 70/90):
only the warning and critical alerts fire; the return to normal updates
the stored level silently — no recovery alert exists in the code, though
the repository's own tests and README require one. -/
theorem C4_missing_recovery_alert :
    (runCheckAndNotify initNotificationService
        [(50, 40), (75, 40), (95, 40), (50, 40)]).2 =
      [⟨"Session Quota Warning", Urgency.normal⟩,
       ⟨"Session Quota Critical", Urgency.critical⟩] ∧
    (runCheckAndNotify initNotificationService
        [(50, 40), (75, 40), (95, 40), (50, 40)]).1.state.lastFiveHourLevel
      = QuotaLevel.normal := by
  constructor <;> decide

/-- C8: the claim says `notifyTokenRefreshFailed` is rate-limited to one
alert per 30 minutes.  The latest code keeps no cooldown state at all:
the service record is returned unchanged and two immediately successive
calls both deliver the alert, though the repository's own test
("should respect 30-minute cooldown") requires the second to be
suppressed. -/
theorem C8_no_refresh_failure_cooldown :
    (notifyTokenRefreshFailed initNotificationService).2 =
      [⟨"Authentication Error", Urgency.critical⟩] ∧
    (notifyTokenRefreshFailed initNotificationService).1 = initNotificationService ∧
    (notifyTokenRefreshFailed (notifyTokenRefreshFailed initNotificationService).1).2 =
      [⟨"Authentication Error", Urgency.critical⟩] := by
  refine ⟨by decide, by decide, by decide⟩

/-- C3 counterexample: with an empty credentials cache, a caller that
arrives while a refresh is in flight resolves to `null` (the cached
value), not to the new credentials the in-flight operation returns —
so it does not receive "the result of the operation already running". -/
theorem C3_counterexample :
    (overlappingRefresh ⟨false, none, none⟩
        ⟨"abcdefghijkl", some "mnopqrstuvwx", some 0⟩ 1000
        (RefreshHttpOutcome.ok ⟨"newaccess12345", "newrefresh12345", 3600⟩)
        true).resultB ≠
      (overlappingRefresh ⟨false, none, none⟩
        ⟨"abcdefghijkl", some "mnopqrstuvwx", some 0⟩ 1000
        (RefreshHttpOutcome.ok ⟨"newaccess12345", "newrefresh12345", 3600⟩)
        true).resultA := by
  decide

/-- C3 (amended): while one refresh operation is in flight, an
overlapping `refreshToken` call issues no second network call (one call
total) and resolves immediately to the previously cached credentials —
possibly `null` or stale — rather than to the in-flight operation's
result. -/
theorem C3_single_flight_returns_cache (st : KeychainState) (credentials : Credentials)
    (rt : String) (now : ℚ) (resp : RefreshHttpOutcome) (writeOk : Bool)
    (hrt : credentials.refreshToken = some rt) (hv : isValidToken rt = true) :
    (overlappingRefresh st credentials now resp writeOk).networkCalls = 1 ∧
    (overlappingRefresh st credentials now resp writeOk).resultB = st.cachedCredentials := by
  unfold overlappingRefresh
  simp only [refreshToken, hrt, hv, Bool.not_true, Bool.false_eq_true, if_false]
  constructor
  · simp [refreshBody_networkCalls]
  · simp

/-- C3 witness: concrete overlapping run — one network call, second
caller resolves to the (empty) cache. -/
theorem C3_witness :
    (overlappingRefresh ⟨false, none, none⟩
        ⟨"abcdefghijkl", some "mnopqrstuvwx", some 0⟩ 1000
        (RefreshHttpOutcome.ok ⟨"newaccess12345", "newrefresh12345", 3600⟩)
        true).networkCalls = 1 ∧
    (overlappingRefresh ⟨false, none, none⟩
        ⟨"abcdefghijkl", some "mnopqrstuvwx", some 0⟩ 1000
        (RefreshHttpOutcome.ok ⟨"newaccess12345", "newrefresh12345", 3600⟩)
        true).resultB = none := by
  exact C3_single_flight_returns_cache ⟨false, none, none⟩
    ⟨"abcdefghijkl", some "mnopqrstuvwx", some 0⟩ "mnopqrstuvwx" 1000
    (RefreshHttpOutcome.ok ⟨"newaccess12345", "newrefresh12345", 3600⟩)
    true rfl (by decide)

/-- C9 counterexample: a successful `refreshToken` overwrites
`expiresAt` with `now + expires_in * 1000` unconditionally, so a refresh
answered with a short-lived token (here `expires_in = 60`) while the
stored expiry lies far in the future makes the stored `expiresAt`
decrease from 1000000000 to 61000. -/
theorem C9_counterexample :
    (refreshToken ⟨false, none, some ⟨"abcdefghijkl", some "mnopqrstuvwx", some 1000000000⟩⟩
        ⟨"abcdefghijkl", some "mnopqrstuvwx", some 1000000000⟩ 1000
        (RefreshHttpOutcome.ok ⟨"newaccess12345", "newrefresh12345", 60⟩) true).returned
      = some ⟨"newaccess12345", some "newrefresh12345", some 61000⟩ ∧
    (refreshToken ⟨false, none, some ⟨"abcdefghijkl", some "mnopqrstuvwx", some 1000000000⟩⟩
        ⟨"abcdefghijkl", some "mnopqrstuvwx", some 1000000000⟩ 1000
        (RefreshHttpOutcome.ok ⟨"newaccess12345", "newrefresh12345", 60⟩) true).state.stored
      = some ⟨"newaccess12345", some "newrefresh12345", some 61000⟩ ∧
    (61000 : ℚ) < 1000000000 := by
  have h1 : isValidToken "newaccess12345" = true := by decide
  have h2 : isValidToken "newrefresh12345" = true := by decide
  have h3 : isValidToken "mnopqrstuvwx" = true := by decide
  refine ⟨?_, ?_, by norm_num⟩ <;>
    · simp only [refreshToken, refreshBody, h1, h2, h3]
      norm_num

/-- C9 (amended): credentials written by a successful (non-guarded)
`refreshToken` carry a validated, hence non-empty, access token and
`expiresAt = now + expires_in × 1000`; this value is ≥ the previous
expiry whenever the refresh follows expiry detection (`isTokenExpired`,
5-minute buffer) and the response lifetime is at least 300 seconds —
but it may decrease otherwise (see the counterexample). -/
theorem C9_refresh_token_validity (st : KeychainState)
    (credentials newCreds : Credentials) (now : ℚ) (data : TokenRefreshResponse)
    (writeOk : Bool) (hflight : st.isRefreshing = false)
    (hsucc : (refreshToken st credentials now (.ok data) writeOk).returned = some newCreds) :
    (newCreds.accessToken ≠ "" ∧ isValidToken newCreds.accessToken = true ∧
      newCreds.expiresAt = some (now + data.expires_in * 1000)) ∧
    (∀ e : ℚ, credentials.expiresAt = some e → isTokenExpired credentials now = true →
      300 ≤ data.expires_in → e ≤ now + data.expires_in * 1000) := by
  constructor
  · cases hrt : credentials.refreshToken with
    | none => simp [refreshToken, hrt] at hsucc
    | some rt =>
      by_cases hv : isValidToken rt
      · simp only [refreshToken, hrt, hv, Bool.not_true, Bool.false_eq_true, if_false,
          hflight, refreshBody] at hsucc
        split_ifs at hsucc <;>
          first
            | exact Option.noConfusion hsucc
            | (dsimp only at hsucc
               rw [Option.some.injEq] at hsucc
               subst hsucc
               exact ⟨isValidToken_ne_empty _ (by assumption), by assumption, rfl⟩)
      · simp [refreshToken, hrt, hv] at hsucc
  · intro e he hexp h300
    rw [isTokenExpired, he, decide_eq_true_eq] at hexp
    have h1000 : (300 : ℚ) * 1000 ≤ data.expires_in * 1000 := by
      exact mul_le_mul_of_nonneg_right h300 (by norm_num)
    linarith

/-- C9 witness: a refresh triggered at `now = 0` on a token expiring at
200000 (inside the 5-minute buffer) with `expires_in = 3600` yields a
non-empty access token and a non-decreased expiry of 3600000. -/
theorem C9_witness :
    (⟨"newaccess12345", some "newrefresh12345", some 3600000⟩ : Credentials).accessToken ≠ "" ∧
    (200000 : ℚ) ≤ 0 + 3600 * 1000 := by
  have h1 : isValidToken "newaccess12345" = true := by decide
  have h2 : isValidToken "newrefresh12345" = true := by decide
  have h3 : isValidToken "mnopqrstuvwx" = true := by decide
  have hsucc : (refreshToken ⟨false, none, none⟩
      ⟨"abcdefghijkl", some "mnopqrstuvwx", some 200000⟩ 0
      (RefreshHttpOutcome.ok ⟨"newaccess12345", "newrefresh12345", 3600⟩) true).returned
      = some ⟨"newaccess12345", some "newrefresh12345", some 3600000⟩ := by
    simp only [refreshToken, refreshBody, h1, h2, h3]
    norm_num
  have h := C9_refresh_token_validity ⟨false, none, none⟩
    ⟨"abcdefghijkl", some "mnopqrstuvwx", some 200000⟩
    ⟨"newaccess12345", some "newrefresh12345", some 3600000⟩ 0
    ⟨"newaccess12345", "newrefresh12345", 3600⟩ true rfl hsucc
  exact ⟨h.1.1, h.2 200000 rfl (by norm_num [isTokenExpired]) (by norm_num)⟩

/-- C7 counterexample: on exactly the samples `{t=0, 5h=10}` and
`{t=15min, 5h=40}` inside the 30-minute lookback, the code divides the
average difference by half the span (`0.125 h`), reporting a delta of
+240 percentage points per hour — not ≈+120 — and
`estimateTimeToThreshold(90)` yields 0.2 hours (12 minutes), not
≈25 minutes (0.4 hours). -/
theorem C7_counterexample :
    getTrend [⟨0, 10, 20⟩, ⟨900000, 40, 20⟩] 900000 30 =
      some ⟨⟨TrendDirection.up, 240⟩, ⟨TrendDirection.stable, 0⟩⟩ ∧
    (240 : ℚ) ≠ 120 ∧
    estimateTimeToThreshold [⟨0, 10, 20⟩, ⟨900000, 40, 20⟩] 900000 90 =
      some ⟨some (1/5), none⟩ ∧
    (1/5 : ℚ) ≠ 2/5 := by
  refine ⟨?_, by norm_num, ?_, by norm_num⟩ <;>
    norm_num [getTrend, getEntriesForPeriod, getEntries, avgBy, getDirection, round1,
      jsRound, estimateTimeToThreshold, calculateHoursToThreshold, getLatestEntry,
      List.getLast?]

/-- C7 (amended): with exactly the two samples `{t=0, 5h=10}` and
`{t=15min, 5h=40}` in the 30-minute window, `getTrend` reports a
five-hour delta of +240 percentage points per hour (the divisor is half
the first-to-last span, which doubles the instantaneous rate when each
half holds a single sample) with direction `up`, and
`estimateTimeToThreshold(90)` from latest value 40 and that delta yields
0.2 hours (12 minutes) for the five-hour window. -/
theorem C7_trend_and_threshold_values :
    getTrend [⟨0, 10, 20⟩, ⟨900000, 40, 20⟩] 900000 30 =
      some ⟨⟨TrendDirection.up, 240⟩, ⟨TrendDirection.stable, 0⟩⟩ ∧
    estimateTimeToThreshold [⟨0, 10, 20⟩, ⟨900000, 40, 20⟩] 900000 90 =
      some ⟨some (1/5), none⟩ := by
  constructor <;>
    norm_num [getTrend, getEntriesForPeriod, getEntries, avgBy, getDirection, round1,
      jsRound, estimateTimeToThreshold, calculateHoursToThreshold, getLatestEntry,
      List.getLast?]

/-- Helper: `pushAndTrim` appends the rounded sample and drops the
overflow from the front. -/
theorem pushAndTrim_eq_drop (es : List HistoryEntry) (t fh sd : ℚ) :
    pushAndTrim es t fh sd =
      (es ++ [HistoryEntry.mk t (round2 fh) (round2 sd)]).drop
        (es.length + 1 - MAX_ENTRIES) := by
  simp only [pushAndTrim, List.length_append, List.length_singleton]
  split_ifs with h
  · rfl
  · have h0 : es.length + 1 - MAX_ENTRIES = 0 := by omega
    simp [h0]

/-- C5: `addEntry` is a no-op when the last stored entry is younger than
30 seconds (so a second call within 30 seconds of a successful one adds
nothing); otherwise it appends one sample with both utilizations rounded
to 2 decimals and drops entries from the front so that at most
`MAX_ENTRIES = 1000` remain. -/
theorem C5_addEntry_dedup_round_trim (entries : List HistoryEntry) (e : HistoryEntry)
    (now now2 fiveHour sevenDay f2 s2 : ℚ) :
    (entries.getLast? = some e → now - e.timestamp < 30000 →
      addEntry entries now fiveHour sevenDay = entries) ∧
    ((∀ l, entries.getLast? = some l → 30000 ≤ now - l.timestamp) →
      addEntry entries now fiveHour sevenDay =
        (entries ++ [HistoryEntry.mk now (round2 fiveHour) (round2 sevenDay)]).drop
          (entries.length + 1 - MAX_ENTRIES) ∧
      (addEntry entries now fiveHour sevenDay).length
        = min (entries.length + 1) MAX_ENTRIES) ∧
    ((∀ l, entries.getLast? = some l → 30000 ≤ now - l.timestamp) →
      now2 - now < 30000 →
      addEntry (addEntry entries now fiveHour sevenDay) now2 f2 s2 =
        addEntry entries now fiveHour sevenDay) := by
  have hEqCond : (∀ l, entries.getLast? = some l → 30000 ≤ now - l.timestamp) →
      addEntry entries now fiveHour sevenDay = pushAndTrim entries now fiveHour sevenDay := by
    intro hge
    cases hL : entries.getLast? with
    | none => simp [addEntry, hL]
    | some l => simp [addEntry, hL, not_lt.mpr (hge l hL)]
  refine ⟨?_, ?_, ?_⟩
  · intro hLast hLt
    simp [addEntry, hLast, hLt]
  · intro hge
    refine ⟨(hEqCond hge).trans (pushAndTrim_eq_drop _ _ _ _), ?_⟩
    rw [hEqCond hge, pushAndTrim_eq_drop, List.length_drop, List.length_append,
      List.length_singleton]
    omega
  · intro hge hLt2
    have hLast2 : (addEntry entries now fiveHour sevenDay).getLast?
        = some (HistoryEntry.mk now (round2 fiveHour) (round2 sevenDay)) := by
      rw [hEqCond hge, pushAndTrim_eq_drop,
        List.drop_append_of_le_length (by simp [MAX_ENTRIES]),
        List.getLast?_concat]
    set r := addEntry entries now fiveHour sevenDay with hr
    simp [addEntry, hLast2, hLt2]

/-- C5 witness: a blocked second call, a rounded append, and the
two-calls-within-30-seconds collapse on concrete inputs. -/
theorem C5_witness :
    addEntry [⟨0, 10, 20⟩] 1000 50 60 = [⟨0, 10, 20⟩] ∧
    addEntry [⟨0, 10, 20⟩] 40000 (45.556 : ℚ) (32.123 : ℚ) =
      [⟨0, 10, 20⟩, ⟨40000, 45.56, 32.12⟩] ∧
    addEntry (addEntry [⟨0, 10, 20⟩] 40000 (45.556 : ℚ) (32.123 : ℚ)) 50000 99 99 =
      addEntry [⟨0, 10, 20⟩] 40000 (45.556 : ℚ) (32.123 : ℚ) := by
  have hsolo : ∀ l : HistoryEntry,
      ([⟨0, 10, 20⟩] : List HistoryEntry).getLast? = some l →
      (30000 : ℚ) ≤ 40000 - l.timestamp := by
    intro l hl
    simp only [List.getLast?_singleton, Option.some.injEq] at hl
    rw [← hl]
    norm_num
  refine ⟨?_, ?_, ?_⟩
  · exact (C5_addEntry_dedup_round_trim [⟨0, 10, 20⟩] ⟨0, 10, 20⟩ 1000 0 50 60 0 0).1
      rfl (by norm_num)
  · refine ((C5_addEntry_dedup_round_trim [⟨0, 10, 20⟩] ⟨0, 10, 20⟩ 40000 0
      (45.556 : ℚ) (32.123 : ℚ) 0 0).2.1 hsolo).1.trans ?_
    norm_num [round2, jsRound, MAX_ENTRIES]
  · exact (C5_addEntry_dedup_round_trim [⟨0, 10, 20⟩] ⟨0, 10, 20⟩ 40000 50000
      (45.556 : ℚ) (32.123 : ℚ) 99 99).2.2 hsolo (by norm_num)

/-- C10: when every sample in the lookback window carries one timestamp,
the span is zero and `getTrend` substitutes one hour for it
(`timeSpanMs / 3600000 || 1`), so the per-hour deltas are finite — each
equals twice the difference of the half-averages — and a `TrendData`
value is still returned whenever at least two samples are present. -/
theorem C10_getTrend_zero_span (entries : List HistoryEntry)
    (now lookbackMinutes c : ℚ)
    (hAll : ∀ e ∈ getEntriesForPeriod entries now (lookbackMinutes / 60),
      e.timestamp = c)
    (hLen : 2 ≤ (getEntriesForPeriod entries now (lookbackMinutes / 60)).length) :
    getTrend entries now lookbackMinutes =
      (let es := getEntriesForPeriod entries now (lookbackMinutes / 60)
       let d5 := 2 * (avgBy HistoryEntry.fiveHour (es.drop (es.length / 2))
         - avgBy HistoryEntry.fiveHour (es.take (es.length / 2)))
       let d7 := 2 * (avgBy HistoryEntry.sevenDay (es.drop (es.length / 2))
         - avgBy HistoryEntry.sevenDay (es.take (es.length / 2)))
       some ⟨⟨getDirection d5, round1 d5⟩, ⟨getDirection d7, round1 d7⟩⟩) := by
  have hne : getEntriesForPeriod entries now (lookbackMinutes / 60) ≠ [] := by
    intro h
    rw [h] at hLen
    simp at hLen
  have hLast : ((getEntriesForPeriod entries now (lookbackMinutes / 60)).getLast?.map
      HistoryEntry.timestamp).getD 0 = c := by
    rw [List.getLast?_eq_getLast_of_ne_nil hne]
    simp [hAll _ (List.getLast_mem hne)]
  have hHead : ((getEntriesForPeriod entries now (lookbackMinutes / 60)).head?.map
      HistoryEntry.timestamp).getD 0 = c := by
    rw [List.head?_eq_head hne]
    simp [hAll _ (List.head_mem hne)]
  have hdiv : ∀ x : ℚ, x / ((1 : ℚ) / 2) = 2 * x := by
    intro x
    ring
  simp only [getTrend, not_lt.mpr hLen, if_false, hLast, hHead, sub_self, zero_div,
    if_pos rfl, if_true, eq_self_iff_true, hdiv]

/-- C10 witness: two samples sharing timestamp 100 still yield a trend
with finite deltas `2*(30-10) = 40` and `2*(60-20) = 80`. -/
theorem C10_witness :
    getTrend [⟨100, 10, 20⟩, ⟨100, 30, 60⟩] 100 30 =
      some ⟨⟨TrendDirection.up, 40⟩, ⟨TrendDirection.up, 80⟩⟩ := by
  have h := C10_getTrend_zero_span [⟨100, 10, 20⟩, ⟨100, 30, 60⟩] 100 30 100
    (by
      intro e he
      norm_num [getEntriesForPeriod, getEntries] at he
      rcases he with he | he <;> rw [he])
    (by norm_num [getEntriesForPeriod, getEntries])
  rw [h]
  norm_num [getEntriesForPeriod, getEntries, avgBy, getDirection, round1, jsRound]

/-- C1: the claim says a fetch whose retries are exhausted returns the
last successful snapshot with the final classified error attached and,
with no cache, records the error for `getLastError()`.  Evaluating the
code: after a successful forced fetch, a second forced fetch whose four
attempts all answer HTTP 500 makes `fetchWithRetry` return `null`, and
`fetchQuota` returns `null` with the whole state untouched — no error is
classified, attached or recorded (`classifyError` only runs when the
try-block throws, e.g. on a JSON parse failure).  `getCachedQuota()`
does still return the last successful snapshot. -/
theorem C1_exhausted_retries_drop_error :
    (let app0 : AppState :=
      { quota := initQuotaServiceState, history := [],
        notif := initNotificationService,
        sched := ⟨60000, 60000, true, QuotaLevel.normal⟩ }
     let creds : Credentials := ⟨"abcdefghijkl", some "mnopqrstuvwx", none⟩
     let body : UsageResponse := ⟨⟨50, 3600000⟩, ⟨40, 86400000⟩⟩
     let r1 := fetchQuota app0 true 1000 (some creds)
       (fun _ => FetchOutcome.ok (Except.ok body)) none
     let r2 := fetchQuota r1.2 true 3600000 (some creds)
       (fun _ => FetchOutcome.httpError 500 "Internal Server Error") none
     r1.1.isSome = true ∧
     r2.1 = none ∧
     r2.2 = r1.2 ∧
     getCachedQuota r2.2.quota = r1.1 ∧
     getLastError r2.2.quota = none) :=
  ⟨rfl, rfl, rfl, rfl, rfl⟩

/-- C2: the claim says a 401 triggers exactly one refresh-and-retry with
the new token, and a second 401 is terminal with
`lastError = {type: auth, retryable: false}` recorded.  Evaluating the
code on two consecutive 401s with a successful keychain refresh: exactly
one refresh happens, the retry carries the refreshed bearer token, the
second 401 ends the loop after two fetches, and `fetchQuota` returns
`null` — but `lastError` stays `null`: the terminal 401 path returns
without ever classifying or recording an auth error. -/
theorem C2_double_401_terminal :
    (let app0 : AppState :=
      { quota := initQuotaServiceState, history := [],
        notif := initNotificationService,
        sched := ⟨60000, 60000, true, QuotaLevel.normal⟩ }
     let c0 : Credentials := ⟨"abcdefghijkl", some "mnopqrstuvwx", none⟩
     let c1 : Credentials := ⟨"refreshedtok12", some "mnopqrstuvwx", some 10000000⟩
     let report := fetchWithRetry c0 (fun _ => FetchOutcome.httpError 401 "Unauthorized")
       (some c1)
     let r := fetchQuota app0 true 1000 (some c0)
       (fun _ => FetchOutcome.httpError 401 "Unauthorized") (some c1)
     report.refreshCalls = 1 ∧
     report.fetchCalls = 2 ∧
     report.tokensUsed = ["abcdefghijkl", "refreshedtok12"] ∧
     report.response = none ∧
     r.1 = none ∧
     getLastError r.2.quota = none) :=
  ⟨rfl, rfl, rfl, rfl, rfl, rfl⟩

end ClaudeBar
